import Mathlib

-- Verification of the page-interaction script (script.js) of the repository.
-- The script drives a landing page: a mobile navigation toggle, smooth anchor
-- scrolling, navbar styling on scroll, reveal animations driven by an
-- intersection observer, a numeric counter animation, a typing effect for the
-- hero title, an image lightbox and a Konami-code easter egg.
--
-- Embedding conventions:
--   * JS numbers that can become NaN are modelled as `Option Rat` (`none` = NaN);
--     all other numeric quantities are plain rationals.
--   * `document.querySelector` results are `Option` values; calling a method on
--     a null result is modelled as `Except.error JsError.typeError`.
--   * `element.innerHTML` and `element.textContent` are modelled as strings
--     (the HTML reparsing a real browser performs is outside the model).
--   * Timers are modelled by step functions iterated over tick counts, and the
--     interval/delay durations are recorded as named constants.

-- ## JS number model (NaN-aware rationals)

-- JS numeric value: `none` models NaN, `some q` a finite number.
def JsNum : Type := Option ℚ

instance : DecidableEq JsNum := by unfold JsNum; infer_instance

-- JS addition: any operation touching NaN yields NaN.
def jsAdd : JsNum → JsNum → JsNum
  | some a, some b => some (a + b)
  | _, _ => none

-- JS division by the literal 50 (`numericTarget / 50`).
def jsDiv50 : JsNum → JsNum
  | some a => some (a / 50)
  | none => none

-- JS comparison `x >= y`: every comparison involving NaN is false.
def jsGe : JsNum → JsNum → Bool
  | some a, some b => decide (b ≤ a)
  | _, _ => false

-- JS `String(Math.floor(x))` as used in `Math.floor(current) + '+'`;
-- `Math.floor(NaN)` is NaN and stringifies to "NaN".
def jsFloorString : JsNum → String
  | some a => toString ⌊a⌋
  | none => "NaN"

-- ## JS parseInt model (decimal subset)

-- Numeric value of a decimal digit character.
def digitVal (c : Char) : Nat := c.toNat - '0'.toNat

-- Value of a digit list read most-significant first.
def digitsVal (l : List Char) : Nat := l.foldl (fun a c => a * 10 + digitVal c) 0

-- Leading decimal digits of the list, `none` when there are none
-- (JS `parseInt` returns NaN in that case).
def jsParseDigits (l : List Char) : Option Nat :=
  match l.takeWhile Char.isDigit with
  | [] => none
  | ds => some (digitsVal ds)

-- JS `parseInt(s)` restricted to the decimal forms the page uses:
-- skip leading whitespace, an optional sign, then leading digits;
-- NaN (here `none`) when no digits follow.  Radix prefixes are outside
-- the modelled subset.
def jsParseInt (s : String) : Option Int :=
  match s.data.dropWhile Char.isWhitespace with
  | '-' :: rest => (jsParseDigits rest).map (fun v => -(v : Int))
  | '+' :: rest => (jsParseDigits rest).map (fun v => (v : Int))
  | l => (jsParseDigits l).map (fun v => (v : Int))

-- JS `s.replace('+', '')`: removes the first occurrence of the plus sign only.
def removeFirstPlus : List Char → List Char
  | [] => []
  | c :: cs => if c = '+' then cs else c :: removeFirstPlus cs

def jsReplacePlus (s : String) : String := String.mk (removeFirstPlus s.data)

-- ## Counter animator (script.js lines 71-107)

-- Literal test `target === '∞'` (line 75).
def isInfinity (s : String) : Bool := s == "∞"

-- Registration guard (line 104): `if (stat.textContent !== '∞')` then observe.
def statRegistered (s : String) : Bool := !(s == "∞")

-- `animateCounter` creates its interval exactly when the early return on the
-- infinite sentinel (line 77) is not taken.
def counterIntervalCreated (s : String) : Bool := !(isInfinity s)

-- `const numericTarget = parseInt(target.replace('+', ''))` (line 79),
-- as a JS number (NaN when unparseable).
def counterTarget (s : String) : JsNum := (jsParseInt (jsReplacePlus s)).map (fun n => (n : ℚ))

-- `target.includes('+') ? '+' : ''` (line 88).
def counterSuffix (s : String) : String := if s.contains '+' then "+" else ""

-- Interval period of the counter timer (line 90): 30 ms.
def counterIntervalMs : Nat := 30

-- State of one running counter animation: the accumulator `current`,
-- the displayed `textContent`, and whether `clearInterval` has run.
structure CounterState where
  current : JsNum
  text : String
  stopped : Bool
deriving DecidableEq

-- State just after `animateCounter` starts its interval: `current = 0`,
-- text still the original literal, timer running.
def counterInit (s : String) : CounterState := ⟨some 0, s, false⟩

-- One 30 ms tick of the interval callback (lines 82-90).  After the timer is
-- cleared no further ticks occur, modelled by a fixpoint.
def counterTick (s : String) (st : CounterState) : CounterState :=
  if st.stopped then st
  else if jsGe (jsAdd st.current (jsDiv50 (counterTarget s))) (counterTarget s) then
    ⟨jsAdd st.current (jsDiv50 (counterTarget s)), s, true⟩
  else
    ⟨jsAdd st.current (jsDiv50 (counterTarget s)),
     jsFloorString (jsAdd st.current (jsDiv50 (counterTarget s))) ++ counterSuffix s,
     false⟩

-- Counter state after `k` ticks of the interval.
def counterRun (s : String) : Nat → CounterState
  | 0 => counterInit s
  | k + 1 => counterTick s (counterRun s (k))

-- ## Stat registration and visibility pipeline (lines 93-107)

-- Events a stat element can receive: an intersection-observer callback entry
-- (with its isIntersecting flag) or one tick of a created counter interval.
inductive StatEvent where
  | intersect (isIntersecting : Bool)
  | tick
deriving DecidableEq

-- Observable state of one stat element: whether the stats observer still
-- observes it, whether a counter interval is live, how many ticks have fired,
-- and the displayed text.
structure StatMachine where
  observed : Bool
  timer : Bool
  ticks : Nat
  text : String
deriving DecidableEq

-- Registration (lines 103-107): the element is observed iff its text is not
-- the infinite sentinel; no timer exists yet and the text is untouched.
def statInit (s : String) : StatMachine := ⟨statRegistered s, false, 0, s⟩

-- One event: an intersecting entry for an observed element calls
-- `animateCounter` (which bails out on the sentinel, line 77) and unobserves
-- the element (line 98); a tick advances the counter interval when one is live.
def statStep (s : String) (st : StatMachine) : StatEvent → StatMachine
  | .intersect b =>
    if st.observed && b then
      if isInfinity s then { st with observed := false }
      else { st with observed := false, timer := true }
    else st
  | .tick =>
    if st.timer then
      { st with ticks := st.ticks + 1,
                text := (counterRun s (st.ticks + 1)).text,
                timer := !(counterRun s (st.ticks + 1)).stopped }
    else st

-- ## Konami detector (lines 155-174)

def konamiCode : List String :=
  ["ArrowUp", "ArrowUp", "ArrowDown", "ArrowDown", "ArrowLeft",
   "ArrowRight", "ArrowLeft", "ArrowRight", "KeyB", "KeyA"]

-- Detector state: the index into `konamiCode` and how many times the easter
-- egg has been activated.
structure KonamiState where
  konamiIndex : Nat
  eggCount : Nat
deriving DecidableEq

-- The keydown listener (lines 159-174).  An index beyond the sequence never
-- occurs, but `konamiCode[konamiIndex]` would be undefined there and compare
-- unequal to any key code, hence the `none` branch resets too.
def konamiKeydown (st : KonamiState) (code : String) : KonamiState :=
  match konamiCode.get? st.konamiIndex with
  | some expected =>
    if code = expected then
      if st.konamiIndex + 1 = konamiCode.length then ⟨0, st.eggCount + 1⟩
      else ⟨st.konamiIndex + 1, st.eggCount⟩
    else ⟨0, st.eggCount⟩
  | none => ⟨0, st.eggCount⟩

-- Feeding a whole key sequence from the initial state.
def konamiRun (keys : List String) : KonamiState := keys.foldl konamiKeydown ⟨0, 0⟩

-- ## Navbar styling on scroll (lines 33-43)

-- Inline style the scroll handler writes on the navbar.
structure NavbarStyle where
  background : String
  boxShadow : String
deriving DecidableEq

def navbarElevated : NavbarStyle :=
  ⟨"rgba(255, 255, 255, 0.98)", "0 2px 20px rgba(0, 0, 0, 0.1)"⟩

def navbarResting : NavbarStyle := ⟨"rgba(255, 255, 255, 0.95)", "none"⟩

-- Pure style decision of the handler body (lines 36-42): strict `> 100`.
def navbarOnScroll (scrollY : ℚ) : NavbarStyle :=
  if scrollY > 100 then navbarElevated else navbarResting

-- ## Null-dereference model for optional page elements

-- A DOM element; only identity matters to the model.
structure DomElem where
  elemId : Nat
deriving DecidableEq

inductive JsError where
  | typeError
deriving DecidableEq

-- Calling any method or setting any property on a `querySelector` result:
-- throws TypeError when the result is null.
def derefOpt {α : Type} : Option α → Except JsError α
  | none => Except.error JsError.typeError
  | some a => Except.ok a

-- Top-level script prefix (lines 2-8): `hamburger.addEventListener` runs
-- unguarded, so a missing `.hamburger` element throws and none of the later
-- top-level registrations run.  The returned Bool reports that the rest of
-- the script registered.
def scriptSetup (hamburger : Option DomElem) : Except JsError Bool := do
  let _ ← derefOpt hamburger
  pure true

-- Hamburger click handler (lines 5-8): `navMenu.classList.toggle` dereferences
-- the menu panel; the open flag flips when it exists.
def hamburgerClickHandler (navMenu : Option DomElem) (menuOpen : Bool) : Except JsError Bool := do
  let _ ← derefOpt navMenu
  pure (!menuOpen)

-- Scroll handler for the navbar (lines 34-43): `navbar.style.background` is
-- written unguarded, so a missing `.navbar` element throws on every scroll.
def navbarScrollHandler (navbar : Option DomElem) (scrollY : ℚ) : Except JsError NavbarStyle := do
  let _ ← derefOpt navbar
  pure (navbarOnScroll scrollY)

-- Parallax scroll handler (lines 111-119): guarded by `if (parallax)`, so a
-- missing `.hero` element is a silent no-op; otherwise the hero translation is
-- `scrolled * 0.5`.
def parallaxScrollHandler (hero : Option DomElem) (scrollY : ℚ) : Except JsError (Option ℚ) :=
  Except.ok (hero.map (fun _ => scrollY * (1 / 2)))

-- ## Anchor smooth scrolling (lines 19-31)

-- The `window.scrollTo({top, behavior: 'smooth'})` request.
structure ScrollCommand where
  top : ℚ
  smooth : Bool
deriving DecidableEq

-- Anchor click handler: `e.preventDefault()` always runs (the Bool), then the
-- guard `if (target)` scrolls to `target.offsetTop - 80` only when the target
-- exists.  The input is the offsetTop of the target when it exists.
def anchorClickHandler (targetOffsetTop : Option ℚ) :
    Except JsError (Bool × Option ScrollCommand) :=
  Except.ok (true, targetOffsetTop.map (fun t => ⟨t - 80, true⟩))

-- ## Reveal animator (lines 45-69)

-- Inline style pair the reveal system writes: opacity and the translateY
-- offset in px.
structure RevealStyle where
  opacity : ℚ
  translateY : ℚ
deriving DecidableEq

-- Initialization at DOMContentLoaded (lines 64-67).
def revealInitStyle : RevealStyle := ⟨0, 30⟩

-- Observer callback for one entry (lines 52-57): an intersecting entry sets
-- opacity 1 and translateY 0; a non-intersecting entry changes nothing.
def revealObserverCallback (st : RevealStyle) (isIntersecting : Bool) : RevealStyle :=
  if isIntersecting then ⟨1, 0⟩ else st

-- Events that can reach a revealed element after load: scroll events (whose
-- handlers, lines 34-43 and 111-119, never touch opacity or translateY of
-- reveal targets) and intersection-observer entries.
inductive PageEvent where
  | scrollEv (y : ℚ)
  | intersectEv (isIntersecting : Bool)
deriving DecidableEq

def revealStep (st : RevealStyle) : PageEvent → RevealStyle
  | .scrollEv _ => st
  | .intersectEv b => revealObserverCallback st b

-- ## Typing animator (lines 121-137)

-- Initial delay before the first character (line 136) and the per-character
-- interval (line 132), in ms.
def typingInitialDelayMs : Nat := 1000
def typingIntervalMs : Nat := 100

-- Typing state: the captured `originalText`, the current `innerHTML` content
-- (as a character list) and the cursor `i`.
structure TypingState where
  captured : List Char
  content : List Char
  i : Nat
deriving DecidableEq

-- Setup (lines 124-125): capture the content, then clear it.
def typingInit (orig : List Char) : TypingState := ⟨orig, [], 0⟩

-- Guarded setup (line 123): `if (heroTitle)`; with no hero title the whole
-- component is inert.
def typingSetup (heroTitle : Option (List Char)) : Option TypingState :=
  heroTitle.map typingInit

-- One `typeWriter` call (lines 128-134): append `originalText.charAt(i)` and
-- advance while `i < originalText.length`; otherwise do nothing (the chain of
-- timeouts ends).
def typeWriterStep (st : TypingState) : TypingState :=
  if st.i < st.captured.length then
    { st with content := st.content ++ (st.captured.get? st.i).toList, i := st.i + 1 }
  else st

-- Typing state after `k` scheduled `typeWriter` calls.
def typeRun (orig : List Char) : Nat → TypingState
  | 0 => typingInit orig
  | k + 1 => typeWriterStep (typeRun orig (k))

-- ## Lightbox (lines 202-236)

-- A child node of document.body; `nodeId` models object identity, `isModal`
-- marks the overlay elements this component creates.
structure DomNode where
  nodeId : Nat
  isModal : Bool
deriving DecidableEq

-- The overlay element `document.createElement('div')` produces (line 205);
-- `newId` is its fresh identity.
def mkModal (newId : Nat) : DomNode := ⟨newId, true⟩

-- Gallery image click (lines 204-230): build the overlay and
-- `document.body.appendChild(modal)`.
def galleryImgClick (body : List DomNode) (newId : Nat) : List DomNode :=
  body ++ [mkModal newId]

-- Overlay click (lines 232-234): `document.body.removeChild(modal)` removes
-- exactly that node.
def modalClick (body : List DomNode) (modal : DomNode) : List DomNode :=
  body.erase modal

-- ## Helper lemmas about the JS number model

@[simp] theorem jsAdd_some_some (a b : ℚ) : jsAdd (some a) (some b) = some (a + b) := rfl

@[simp] theorem jsAdd_none_left (x : JsNum) : jsAdd none x = none := by
  cases x <;> rfl

@[simp] theorem jsAdd_none_right (x : JsNum) : jsAdd x none = none := by
  cases x <;> rfl

@[simp] theorem jsDiv50_some (a : ℚ) : jsDiv50 (some a) = some (a / 50) := rfl

@[simp] theorem jsDiv50_none : jsDiv50 none = none := rfl

@[simp] theorem jsGe_some_some (a b : ℚ) : jsGe (some a) (some b) = decide (b ≤ a) := rfl

@[simp] theorem jsGe_none_right (x : JsNum) : jsGe x none = false := by
  cases x <;> rfl

@[simp] theorem jsFloorString_none : jsFloorString none = "NaN" := rfl

@[simp] theorem jsFloorString_some (a : ℚ) : jsFloorString (some a) = toString ⌊a⌋ := rfl

-- ## Helper lemmas about the counter machine

theorem counterRun_zero (s : String) : counterRun s 0 = counterInit s := rfl

theorem counterRun_succ (s : String) (k : Nat) :
    counterRun s (k + 1) = counterTick s (counterRun s k) := rfl

theorem counterTick_of_stopped (s : String) (st : CounterState) (h : st.stopped = true) :
    counterTick s st = st := by
  simp [counterTick, h]

theorem counterTick_current (s : String) (st : CounterState) (h : st.stopped = false) :
    (counterTick s st).current = jsAdd st.current (jsDiv50 (counterTarget s)) := by
  simp only [counterTick, h, Bool.false_eq_true, if_false]
  split <;> rfl

-- While the timer is running, `current` after `k` ticks is `k` times the
-- increment `numericTarget / 50`.
theorem counterRun_current_of_running (s : String) (n : ℤ)
    (hn : counterTarget s = some ((n : ℤ) : ℚ)) :
    ∀ k : Nat, (counterRun s k).stopped = false →
      (counterRun s k).current = some ((k : ℚ) * (((n : ℤ) : ℚ) / 50)) := by
  intro k
  induction k with
  | zero =>
    intro _
    simp [counterRun_zero, counterInit]
  | succ k ih =>
    intro hk1
    rcases hstop : (counterRun s k).stopped with _ | _
    · have hcur := ih hstop
      rw [counterRun_succ, counterTick_current s _ hstop, hcur, hn]
      simp only [jsDiv50_some, jsAdd_some_some, Option.some.injEq]
      push_cast
      ring_nf
    · rw [counterRun_succ, counterTick_of_stopped s _ hstop] at hk1
      rw [hstop] at hk1
      cases hk1

-- Once the timer has been cleared, the displayed text is the original literal.
theorem counterRun_text_of_stopped (s : String) :
    ∀ k : Nat, (counterRun s k).stopped = true → (counterRun s k).text = s := by
  intro k
  induction k with
  | zero => intro h; cases h
  | succ k ih =>
    intro hk1
    rcases hstop : (counterRun s k).stopped with _ | _
    · rw [counterRun_succ] at hk1 ⊢
      simp only [counterTick, hstop, Bool.false_eq_true, if_false] at hk1 ⊢
      rcases hge : jsGe (jsAdd (counterRun s k).current (jsDiv50 (counterTarget s)))
          (counterTarget s) with _ | _
      · rw [hge] at hk1
        simp at hk1
      · simp
    · rw [counterRun_succ, counterTick_of_stopped s _ hstop] at hk1 ⊢
      exact ih hk1

-- A cleared timer never restarts and the state is frozen.
theorem counterRun_frozen (s : String) (k : Nat)
    (h : (counterRun s k).stopped = true) :
    counterRun s (k + 1) = counterRun s k := by
  rw [counterRun_succ, counterTick_of_stopped s _ h]

-- ## Helper lemmas for the other components

theorem statStep_infinity_fixed (ev : StatEvent) :
    statStep "∞" (statInit "∞") ev = statInit "∞" := by
  cases ev with
  | intersect b => simp [statStep, statInit, statRegistered]
  | tick => simp [statStep, statInit, statRegistered]

theorem statFold_infinity (evs : List StatEvent) :
    evs.foldl (statStep "∞") (statInit "∞") = statInit "∞" := by
  induction evs with
  | nil => rfl
  | cons e rest ih =>
    rw [List.foldl_cons, statStep_infinity_fixed e]
    exact ih

theorem revealStep_revealed (ev : PageEvent) : revealStep ⟨1, 0⟩ ev = ⟨1, 0⟩ := by
  cases ev with
  | scrollEv y => rfl
  | intersectEv b => cases b <;> rfl

-- ## Claim theorems

/-- Claim C2: the Konami detector triggers the effect exactly once on the exact
10-key sequence (resetting its index to zero), does not trigger and resets on 9
correct keys followed by any incorrect key, and triggers exactly twice on the
sequence fed twice in a row. -/
theorem konami_detector_spec (k : String) (h : k ≠ "KeyA") :
    konamiRun konamiCode = ⟨0, 1⟩ ∧
    konamiRun (konamiCode.take 9 ++ [k]) = ⟨0, 0⟩ ∧
    konamiRun (konamiCode ++ konamiCode) = ⟨0, 2⟩ := by
  refine ⟨by decide, ?_, by decide⟩
  have h9 : (konamiCode.take 9).foldl konamiKeydown ⟨0, 0⟩ = ⟨9, 0⟩ := by decide
  unfold konamiRun
  rw [List.foldl_append, h9]
  simp only [List.foldl_cons, List.foldl_nil]
  unfold konamiKeydown
  have hget : konamiCode.get? 9 = some "KeyA" := by decide
  rw [hget]
  simp [h]

theorem konami_detector_witness :
    "Escape" ≠ "KeyA" ∧
    (konamiRun konamiCode = ⟨0, 1⟩ ∧
     konamiRun (konamiCode.take 9 ++ ["Escape"]) = ⟨0, 0⟩ ∧
     konamiRun (konamiCode ++ konamiCode) = ⟨0, 2⟩) :=
  ⟨by decide, konami_detector_spec "Escape" (by decide)⟩

/-- Claim C4: a counter element whose literal text is the infinite sentinel is
never registered with the stats observer, never gets an interval, and its
displayed text never changes under any sequence of intersection and tick
events. -/
theorem infinite_counter_inert :
    statRegistered "∞" = false ∧
    counterIntervalCreated "∞" = false ∧
    (statInit "∞").text = "∞" ∧
    (statInit "∞").timer = false ∧
    ∀ evs : List StatEvent,
      evs.foldl (statStep "∞") (statInit "∞") = statInit "∞" :=
  ⟨by decide, by decide, rfl, rfl, statFold_infinity⟩

theorem infinite_counter_inert_witness :
    [StatEvent.intersect true, StatEvent.tick, StatEvent.intersect false,
     StatEvent.tick].foldl (statStep "∞") (statInit "∞") = statInit "∞" :=
  infinite_counter_inert.2.2.2.2 _

/-- Claim C5: once a Reveal-registered element is fully revealed (opacity 1,
zero offset), no later scroll or intersection event of this system ever resets
its opacity or restores the downward offset. -/
theorem reveal_one_shot (st : RevealStyle) (h1 : st.opacity = 1)
    (h2 : st.translateY = 0) :
    ∀ evs : List PageEvent, evs.foldl revealStep st = ⟨1, 0⟩ := by
  obtain ⟨o, ty⟩ := st
  dsimp only at h1 h2
  subst h1
  subst h2
  intro evs
  induction evs with
  | nil => rfl
  | cons e rest ih =>
    rw [List.foldl_cons, revealStep_revealed e]
    exact ih

theorem reveal_one_shot_witness :
    (RevealStyle.mk 1 0).opacity = 1 ∧ (RevealStyle.mk 1 0).translateY = 0 ∧
    [PageEvent.intersectEv false, PageEvent.scrollEv 500,
     PageEvent.intersectEv true].foldl revealStep ⟨1, 0⟩ = ⟨1, 0⟩ :=
  ⟨rfl, rfl, reveal_one_shot ⟨1, 0⟩ rfl rfl _⟩

/-- Claim C6: the navbar style is a pure function of the scroll offset with
strict boundary 100: elevated exactly when the offset exceeds 100, so offset
101 is elevated and offset 100 is resting. -/
theorem navbar_boundary_spec :
    navbarOnScroll 101 = navbarElevated ∧
    navbarOnScroll 100 = navbarResting ∧
    (∀ y : ℚ, 100 < y → navbarOnScroll y = navbarElevated) ∧
    (∀ y : ℚ, y ≤ 100 → navbarOnScroll y = navbarResting) := by
  refine ⟨?_, ?_, ?_, ?_⟩
  · norm_num [navbarOnScroll]
  · norm_num [navbarOnScroll]
  · intro y hy
    simp [navbarOnScroll, hy]
  · intro y hy
    simp only [navbarOnScroll]
    rw [if_neg (not_lt.mpr hy)]

theorem navbar_boundary_witness :
    navbarOnScroll 150 = navbarElevated ∧ navbarOnScroll 50 = navbarResting :=
  ⟨navbar_boundary_spec.2.2.1 150 (by norm_num),
   navbar_boundary_spec.2.2.2 50 (by norm_num)⟩

/-- Claim C7: every in-page anchor click prevents default navigation; when the
target exists the page smooth-scrolls to its offsetTop minus the 80-unit header
offset, and when it does not exist the click is a no-op without error. -/
theorem anchor_click_spec :
    (∀ t : ℚ, anchorClickHandler (some t) =
        Except.ok (true, some ⟨t - 80, true⟩)) ∧
    anchorClickHandler none = Except.ok (true, none) :=
  ⟨fun _ => rfl, rfl⟩

theorem anchor_click_witness :
    anchorClickHandler (some 200) = Except.ok (true, some ⟨200 - 80, true⟩) :=
  anchor_click_spec.1 200

/-- Claim C8: clicking a gallery image appends exactly one overlay element to
the page, and clicking that overlay removes exactly that element, returning the
page to its pre-click contents. -/
theorem lightbox_round_trip (body : List DomNode) (newId : Nat)
    (h : mkModal newId ∉ body) :
    (galleryImgClick body newId).length = body.length + 1 ∧
    (galleryImgClick body newId).countP (fun nd => nd.isModal) =
      body.countP (fun nd => nd.isModal) + 1 ∧
    modalClick (galleryImgClick body newId) (mkModal newId) = body := by
  refine ⟨by simp [galleryImgClick], ?_, ?_⟩
  · simp [galleryImgClick, mkModal]
  · unfold modalClick galleryImgClick
    rw [List.erase_append_right _ h]
    simp

theorem lightbox_round_trip_witness :
    mkModal 7 ∉ [DomNode.mk 1 false, DomNode.mk 2 false] ∧
    modalClick (galleryImgClick [DomNode.mk 1 false, DomNode.mk 2 false] 7)
      (mkModal 7) = [DomNode.mk 1 false, DomNode.mk 2 false] :=
  ⟨by decide, (lightbox_round_trip [DomNode.mk 1 false, DomNode.mk 2 false] 7
      (by decide)).2.2⟩

/-- Claim C3 is refuted here: the top-level hamburger binding and the navbar
scroll handler dereference their querySelector results unguarded, so a page
without those elements throws a TypeError instead of degrading to a no-op, and
the top-level throw halts registration of every later component. -/
theorem missing_element_throws :
    navbarScrollHandler none 0 = Except.error JsError.typeError ∧
    scriptSetup none = Except.error JsError.typeError :=
  ⟨rfl, rfl⟩

/-- Claim C3 as amended: the components that guard their optional elements
(anchor target, hero parallax, hero title typing) degrade to silent no-ops and
never throw, and the unguarded sites never throw when their elements exist; but
a missing navbar makes every scroll invocation throw, a missing hamburger makes
the top-level setup throw (halting all later registrations), and a missing menu
panel makes every hamburger click throw. -/
theorem optional_element_degradation :
    (anchorClickHandler none = Except.ok (true, none)) ∧
    (∀ y : ℚ, parallaxScrollHandler none y = Except.ok none) ∧
    (typingSetup none = none) ∧
    (∀ e : DomElem, ∀ y : ℚ,
      navbarScrollHandler (some e) y = Except.ok (navbarOnScroll y)) ∧
    (∀ y : ℚ, navbarScrollHandler none y = Except.error JsError.typeError) ∧
    (scriptSetup none = Except.error JsError.typeError) ∧
    (∀ e : DomElem, scriptSetup (some e) = Except.ok true) ∧
    (∀ b : Bool, hamburgerClickHandler none b = Except.error JsError.typeError) ∧
    (∀ e : DomElem, ∀ b : Bool,
      hamburgerClickHandler (some e) b = Except.ok (!b)) :=
  ⟨rfl, fun _ => rfl, rfl, fun _ _ => rfl, fun _ => rfl, rfl, fun _ => rfl,
   fun _ => rfl, fun _ _ => rfl⟩

theorem optional_element_degradation_witness :
    parallaxScrollHandler none 300 = Except.ok none ∧
    navbarScrollHandler (some ⟨0⟩) 101 = Except.ok (navbarOnScroll 101) :=
  ⟨optional_element_degradation.2.1 300,
   optional_element_degradation.2.2.2.1 ⟨0⟩ 101⟩

-- ## Typing animator lemmas

theorem typeRun_zero (orig : List Char) : typeRun orig 0 = typingInit orig := rfl

theorem typeRun_succ (orig : List Char) (k : Nat) :
    typeRun orig (k + 1) = typeWriterStep (typeRun orig k) := rfl

-- Closed form of the typing run: after `k` calls the captured text is intact,
-- the content is the first `min k length` characters, and the cursor sits at
-- `min k length`.
theorem typeRun_closed (orig : List Char) (k : Nat) :
    typeRun orig k = ⟨orig, orig.take (min k orig.length), min k orig.length⟩ := by
  induction k with
  | zero => simp [typeRun_zero, typingInit]
  | succ k ih =>
    rw [typeRun_succ, ih]
    by_cases hk : k < orig.length
    · have hmin : min k orig.length = k := min_eq_left (le_of_lt hk)
      have hmin1 : min (k + 1) orig.length = k + 1 := min_eq_left hk
      simp only [typeWriterStep, hmin, hmin1, hk, if_true]
      refine congrArg (fun c => TypingState.mk orig c (k + 1)) ?_
      rw [List.get?_eq_getElem?, ← List.take_succ]
    · have hk1 : orig.length ≤ k := le_of_not_lt hk
      have hmin : min k orig.length = orig.length := min_eq_right hk1
      have hmin1 : min (k + 1) orig.length = orig.length :=
        min_eq_right (le_trans hk1 (Nat.le_succ k))
      simp [typeWriterStep, hmin, hmin1]

/-- Claim C9: the typing animator captures the full markup content and clears
it on load, schedules the reveal with a 1000 ms initial delay and 100 ms steps,
reveals one character per step, and once it has run for the length of the
captured content the content equals the captured markup exactly. -/
theorem typing_animator_spec (orig : List Char) :
    typingInitialDelayMs = 1000 ∧
    typingIntervalMs = 100 ∧
    typingSetup (some orig) = some (typeRun orig 0) ∧
    (typeRun orig 0).captured = orig ∧
    (typeRun orig 0).content = [] ∧
    (∀ k : Nat, k < orig.length →
      (typeRun orig (k + 1)).content = orig.take (k + 1)) ∧
    (∀ k : Nat, orig.length ≤ k → (typeRun orig k).content = orig) := by
  refine ⟨rfl, rfl, rfl, rfl, rfl, ?_, ?_⟩
  · intro k hk
    rw [typeRun_closed]
    simp [min_eq_left hk]
  · intro k hk
    rw [typeRun_closed]
    simp [min_eq_right hk]

theorem typing_animator_witness :
    ("<b>ok</b>".data.length ≤ 9) ∧
    (typeRun ("<b>ok</b>".data) 9).content = "<b>ok</b>".data :=
  ⟨by decide, (typing_animator_spec ("<b>ok</b>".data)).2.2.2.2.2.2 9 (by decide)⟩

/-- Claim C1: for a counter whose literal text is not the infinite sentinel and
parses to the integer target `n`, the animation starts at 0, each 30 ms tick
adds the increment `n / 50`, intermediate ticks display the floor of the
accumulator with the plus suffix re-appended when the original had one, the
first tick whose accumulator reaches or exceeds the target clears the interval
and displays the exact original literal, a cleared interval never ticks again,
and by tick 50 the animation has completed with the exact original text. -/
theorem counter_animation_spec (s : String) (n : ℤ)
    (hinf : isInfinity s = false) (hn : counterTarget s = some ((n : ℤ) : ℚ)) :
    counterIntervalCreated s = true ∧
    counterIntervalMs = 30 ∧
    counterRun s 0 = ⟨some 0, s, false⟩ ∧
    (∀ k : Nat, (counterRun s k).stopped = false →
      ((counterRun s (k + 1)).current =
         some (((k : ℚ) + 1) * (((n : ℤ) : ℚ) / 50)) ∧
       (((n : ℤ) : ℚ) ≤ ((k : ℚ) + 1) * (((n : ℤ) : ℚ) / 50) →
         (counterRun s (k + 1)).stopped = true ∧
         (counterRun s (k + 1)).text = s) ∧
       (¬ (((n : ℤ) : ℚ) ≤ ((k : ℚ) + 1) * (((n : ℤ) : ℚ) / 50)) →
         (counterRun s (k + 1)).stopped = false ∧
         (counterRun s (k + 1)).text =
           toString ⌊((k : ℚ) + 1) * (((n : ℤ) : ℚ) / 50)⌋ ++ counterSuffix s))) ∧
    (∀ k : Nat, (counterRun s k).stopped = true →
      counterRun s (k + 1) = counterRun s k) ∧
    (counterRun s 50).stopped = true ∧ (counterRun s 50).text = s := by
  refine ⟨by simp [counterIntervalCreated, hinf], rfl, rfl, ?_, counterRun_frozen s, ?_⟩
  · intro k hk
    have hcur := counterRun_current_of_running s n hn k hk
    rw [counterRun_succ]
    simp only [counterTick, hk, Bool.false_eq_true, if_false, hcur, hn,
      jsDiv50_some, jsAdd_some_some, jsGe_some_some]
    have key : (k : ℚ) * (((n : ℤ) : ℚ) / 50) + ((n : ℤ) : ℚ) / 50 =
        ((k : ℚ) + 1) * (((n : ℤ) : ℚ) / 50) := by ring
    rw [key]
    by_cases hge : ((n : ℤ) : ℚ) ≤ ((k : ℚ) + 1) * (((n : ℤ) : ℚ) / 50)
    · simp [hge]
    · simp [hge]
  · by_cases h49 : (counterRun s 49).stopped = true
    · have h50 : counterRun s 50 = counterRun s 49 := counterRun_frozen s 49 h49
      rw [h50]
      exact ⟨h49, counterRun_text_of_stopped s 49 h49⟩
    · have h49f : (counterRun s 49).stopped = false := by
        revert h49
        cases (counterRun s 49).stopped <;> simp
      have hcur := counterRun_current_of_running s n hn 49 h49f
      have h50 : counterRun s 50 = counterTick s (counterRun s 49) := rfl
      rw [h50]
      simp only [counterTick, h49f, Bool.false_eq_true, if_false, hcur, hn,
        jsDiv50_some, jsAdd_some_some, jsGe_some_some]
      have key : ((49 : ℕ) : ℚ) * (((n : ℤ) : ℚ) / 50) + ((n : ℤ) : ℚ) / 50 =
          ((n : ℤ) : ℚ) := by
        push_cast
        field_simp
        ring
      rw [key]
      simp

theorem counter_animation_witness :
    (isInfinity "120+" = false ∧ counterTarget "120+" = some ((120 : ℤ) : ℚ)) ∧
    (counterIntervalCreated "120+" = true ∧
     counterIntervalMs = 30 ∧
     counterRun "120+" 0 = ⟨some 0, "120+", false⟩ ∧
     (∀ k : Nat, (counterRun "120+" k).stopped = false →
       ((counterRun "120+" (k + 1)).current =
          some (((k : ℚ) + 1) * (((120 : ℤ) : ℚ) / 50)) ∧
        (((120 : ℤ) : ℚ) ≤ ((k : ℚ) + 1) * (((120 : ℤ) : ℚ) / 50) →
          (counterRun "120+" (k + 1)).stopped = true ∧
          (counterRun "120+" (k + 1)).text = "120+") ∧
        (¬ (((120 : ℤ) : ℚ) ≤ ((k : ℚ) + 1) * (((120 : ℤ) : ℚ) / 50)) →
          (counterRun "120+" (k + 1)).stopped = false ∧
          (counterRun "120+" (k + 1)).text =
            toString ⌊((k : ℚ) + 1) * (((120 : ℤ) : ℚ) / 50)⌋ ++
              counterSuffix "120+"))) ∧
     (∀ k : Nat, (counterRun "120+" k).stopped = true →
       counterRun "120+" (k + 1) = counterRun "120+" k) ∧
     (counterRun "120+" 50).stopped = true ∧
     (counterRun "120+" 50).text = "120+") :=
  ⟨⟨by decide, by decide⟩,
   counter_animation_spec "120+" 120 (by decide) (by decide)⟩

/-- Claim C10: for a counter whose literal text is neither the infinite
sentinel nor parseable as an integer after stripping a plus sign, the interval
is created but its stop condition is never satisfied (NaN comparisons are
false), so it is never cleared and every tick displays NaN with the plus
suffix appended when the original text contained one. -/
theorem counter_nan_spec (s : String)
    (hinf : isInfinity s = false) (hn : counterTarget s = none) :
    counterIntervalCreated s = true ∧
    ∀ k : Nat, 1 ≤ k →
      (counterRun s k).current = none ∧
      (counterRun s k).stopped = false ∧
      (counterRun s k).text = "NaN" ++ counterSuffix s := by
  refine ⟨by simp [counterIntervalCreated, hinf], ?_⟩
  intro k hk
  induction k, hk using Nat.le_induction with
  | base =>
    have h1 : counterRun s 1 = counterTick s (counterInit s) := rfl
    rw [h1]
    simp [counterTick, counterInit, hn]
  | succ k hk ih =>
    obtain ⟨hc, hs, _⟩ := ih
    have h1 : counterRun s (k + 1) = counterTick s (counterRun s k) := rfl
    rw [h1]
    simp [counterTick, hs, hc, hn]

theorem counter_nan_witness :
    (isInfinity "abc" = false ∧ counterTarget "abc" = none) ∧
    ((counterRun "abc" 1).current = none ∧
     (counterRun "abc" 1).stopped = false ∧
     (counterRun "abc" 1).text = "NaN" ++ counterSuffix "abc") :=
  ⟨⟨by decide, by decide⟩,
   (counter_nan_spec "abc" (by decide) (by decide)).2 1 (by decide)⟩
